import Mathlib

/-!
Shallow embedding of the BIA document assembly and confidence-scoring
pipeline of `backend/src/services/BIAService.js`, the Rooster predictive
integration of `backend/src/services/RoosterService.js`, and the approval
route of `backend/src/controllers/dataSourceController.js`.

Conventions of the embedding:
* JavaScript numbers are modelled as rationals (`ℚ`); the rational
  semantics agrees with the IEEE-double semantics of the source on every
  concrete input used below.  Near-threshold inputs on which double
  rounding crosses a comparison boundary — such as six scores of 0.8,
  whose JS mean is 0.7999999999999999 and therefore below the 0.8 band
  threshold even though the exact mean is 0.8 — are not used as the input
  of any theorem.
* A JS bracket lookup on a plain object literal walks the prototype chain:
  a key naming an `Object.prototype` member yields that truthy inherited
  member, so a following `|| d` does not fire.  The rule-table getters
  model this with `JLookup.inherited`.
* A loosely typed JS field value is a `JScalar` (string, number or boolean);
  `undefined`/`null` is `Option.none`.  The JS idiom `x || d` applied to a
  scalar falls back on `undefined`, `null`, `""`, `0` and `false`
  (`jsOr` / `jsOrQ`); applied to an object or array it falls back only on
  `undefined`/`null` (`Option.getD`), since objects and arrays are truthy.
* Ambient effects (uuid generation, `new Date()`, the quarterly test date)
  are threaded as explicit string parameters; they never influence the
  logic the claims are about.
-/

namespace BIA

/-- A loosely typed JavaScript scalar as it appears in the source payloads. -/
inductive JScalar where
  | str : String → JScalar
  | num : ℚ → JScalar
  | bool : Bool → JScalar
deriving DecidableEq, Repr

/-- JS falsiness of a scalar: `""`, `0` and `false` are falsy. -/
def JScalar.isFalsy : JScalar → Bool
  | .str s => s = ""
  | .num q => q = 0
  | .bool b => !b

/-- The JS expression `v || d` for an optional scalar field `v`:
`undefined`/`null` and falsy values fall back to the default. -/
def jsOr (v : Option JScalar) (d : JScalar) : JScalar :=
  match v with
  | none => d
  | some x => if x.isFalsy then d else x

/-- The JS expression `v || d` for an optional numeric field:
`undefined`/`null` and `0` fall back to the default. -/
def jsOrQ (v : Option ℚ) (d : ℚ) : ℚ :=
  match v with
  | none => d
  | some q => if q = 0 then d else q

/-- The JS expression `v || d` for an optional string field:
`undefined`/`null` and the empty string fall back to the default. -/
def jsOrS (v : Option String) (d : String) : String :=
  match v with
  | none => d
  | some s => if s = "" then d else s

/-- JS `Math.round`: round half toward positive infinity. -/
def jsRound (q : ℚ) : ℤ := Int.floor (q + 1/2)

/-! ### Source payloads

One structure per data-source payload, restricted to the fields that
`BIAService` reads.  Every field read through optional chaining or a `||`
fallback in the source is `Option`-valued here. -/

/-- An entry of `key_personnel` (name / role / backup). -/
structure PersonnelEntry where
  name : String
  role : String
  backup : String
deriving DecidableEq, Repr

/-- Payload of the HR source, as consumed by `generatePersonnelSection`. -/
structure HRData where
  team_size : Option JScalar
  key_personnel : Option (List PersonnelEntry)
  manager_chain : Option (List String)
  business_hours : Option JScalar
  confidence_score : Option ℚ
  last_updated : Option String
deriving DecidableEq, Repr

/-- Payload of the PagerDuty source. -/
structure PagerDutyData where
  escalation_policy : Option JScalar
  on_call_schedule : Option JScalar
  confidence_score : Option ℚ
  last_updated : Option String
deriving DecidableEq, Repr

/-- The `deployment_info` sub-object of a registry payload. -/
structure DeploymentInfo where
  regions : List String
  replicas : JScalar
  auto_scaling : JScalar
deriving DecidableEq, Repr

/-- Payload of the Registry (Snowflake) source. -/
structure RegistryData where
  technology_stack : Option (List String)
  dependencies : Option (List String)
  reliability_tier : Option JScalar
  deployment_info : Option DeploymentInfo
  runbook_url : Option JScalar
  documentation_url : Option JScalar
  slack_channel : Option JScalar
  confidence_score : Option ℚ
  last_updated : Option String
deriving DecidableEq, Repr

/-- The `transaction_volume` sub-object of a financial payload. -/
structure TransactionVolume where
  daily : JScalar
  peak_hourly : JScalar
deriving DecidableEq, Repr

/-- The `customer_segments` sub-object of a financial payload. -/
structure CustomerSegments where
  enterprise : JScalar
  smb : JScalar
  consumer : JScalar
deriving DecidableEq, Repr

/-- Payload of the financial-metrics source. -/
structure FinancialData where
  daily_revenue_impact : Option JScalar
  monthly_revenue_impact : Option JScalar
  active_customers : Option JScalar
  transaction_volume : Option TransactionVolume
  customer_segments : Option CustomerSegments
  confidence_score : Option ℚ
  last_updated : Option String
deriving DecidableEq, Repr

/-- The `performance_metrics` sub-object of a monitoring payload. -/
structure PerformanceMetrics where
  avg_response_time : Option JScalar
deriving DecidableEq, Repr

/-- Payload of the monitoring source. -/
structure MonitoringData where
  current_availability : Option JScalar
  sla_target : Option JScalar
  performance_metrics : Option PerformanceMetrics
  confidence_score : Option ℚ
  last_updated : Option String
deriving DecidableEq, Repr

/-- The `rto_analysis` / `rpo_analysis` sub-object of a predictions payload. -/
structure RtoAnalysis where
  current_estimate : Option JScalar
  confidence_score : Option ℚ
  twelve_month_forecast : Option JScalar
  improvement_potential : Option JScalar
deriving DecidableEq, Repr

/-- The `risk_assessment` sub-object of a predictions payload. -/
structure RiskAssessment where
  overall_risk : Option JScalar
  risk_factors : List String
  mitigation_recommendations : List String
deriving DecidableEq, Repr

/-- The `performance_predictions` sub-object of a predictions payload. -/
structure PerformancePredictions where
  availability_forecast : Option JScalar
  capacity_utilization : Option JScalar
  scaling_requirements : Option JScalar
deriving DecidableEq, Repr

/-- One scenario (best case / most likely / worst case). -/
structure Scenario where
  rto : JScalar
  rpo : JScalar
  probability : JScalar
deriving DecidableEq, Repr

/-- The `scenarios` sub-object of a predictions payload. -/
structure Scenarios where
  best_case : Scenario
  most_likely : Scenario
  worst_case : Scenario
deriving DecidableEq, Repr

/-- A predictive-analysis payload, as produced by `RoosterService`
(`formatRoosterOutput` or `getFallbackPredictions`) and consumed by
`BIAService`.  The sub-objects are optional because `BIAService` reads them
through optional chaining. -/
structure Predictions where
  rto_analysis : Option RtoAnalysis
  rpo_analysis : Option RtoAnalysis
  risk_assessment : Option RiskAssessment
  performance_predictions : Option PerformancePredictions
  scenarios : Option Scenarios
  data_sources : List String
  generated_at : String
  rooster_version : String
  confidence_overall : Option ℚ
  note : Option String
deriving DecidableEq, Repr

/-- The `autoPopulatedData` argument of `generateBIA`: one optional payload
slot per source (`null` models a source whose adapter failed, mirroring the
`Promise.allSettled` wiring in `dataSourceController.js`). -/
structure AutoPopulatedData where
  registry : Option RegistryData
  pagerDuty : Option PagerDutyData
  hr : Option HRData
  financial : Option FinancialData
  monitoring : Option MonitoringData
  predictions : Option Predictions
deriving DecidableEq, Repr

/-! ### Static rule tables (`BIAService` helper methods)

Each JS object lookup `table[key] || default` is embedded over the five
(resp. three) own keys, every value of which is a non-empty string or
non-empty array and hence truthy.  For a key that is not an own key the
lookup walks the prototype chain: a key naming one of the twelve
`Object.prototype` members returns that truthy inherited member (a
built-in function, or the prototype object itself for the proto accessor),
so the `||` fallback does NOT fire; only for the remaining keys does the
lookup yield `undefined` and the fallback produce the documented default.
All lookups are total Lean functions: no input can raise an error. -/

/-- The property names a plain object literal inherits from
`Object.prototype` in V8/Node.  A bracket lookup with one of these keys
yields a truthy value, never `undefined`. -/
def objectPrototypeKeys : List String :=
  ["constructor", "hasOwnProperty", "isPrototypeOf", "propertyIsEnumerable",
   "toLocaleString", "toString", "valueOf", "__defineGetter__", "__defineSetter__",
   "__lookupGetter__", "__lookupSetter__", "__proto__"]

/-- Result of `table[key] || default` on a string-valued table:
`str` is an own value of the table or the default; `inherited k` is the
truthy member inherited from `Object.prototype` under the key `k`. -/
inductive JLookup where
  | str : String → JLookup
  | inherited : String → JLookup
deriving DecidableEq, Repr

/-- Result of `table[key] || default` on an array-valued table. -/
inductive JLookupList where
  | list : List String → JLookupList
  | inherited : String → JLookupList
deriving DecidableEq, Repr

/-- `BIAService.getBCMClassification`. -/
def getBCMClassification (functionType : String) : JLookup :=
  if functionType = "product" then .str "Critical - Customer Facing"
  else if functionType = "platform" then .str "Important - Business Enabling"
  else if functionType = "support" then .str "Supporting - Internal Operations"
  else if functionType = "infrastructure" then .str "Critical - Foundation Service"
  else if functionType = "compliance" then .str "Important - Regulatory Required"
  else if functionType ∈ objectPrototypeKeys then .inherited functionType
  else .str "To Be Determined"

/-- `BIAService.getMTPD`. -/
def getMTPD (functionType : String) : JLookup :=
  if functionType = "product" then .str "2 hours"
  else if functionType = "platform" then .str "4 hours"
  else if functionType = "support" then .str "24 hours"
  else if functionType = "infrastructure" then .str "1 hour"
  else if functionType = "compliance" then .str "8 hours"
  else if functionType ∈ objectPrototypeKeys then .inherited functionType
  else .str "4 hours"

/-- `BIAService.getMBCO`. -/
def getMBCO (functionType : String) : JLookup :=
  if functionType = "product" then .str "80% capacity within MTPD"
  else if functionType = "platform" then .str "60% capacity within MTPD"
  else if functionType = "support" then .str "50% capacity within MTPD"
  else if functionType = "infrastructure" then .str "95% capacity within MTPD"
  else if functionType = "compliance" then .str "70% capacity within MTPD"
  else if functionType ∈ objectPrototypeKeys then .inherited functionType
  else .str "60% capacity within MTPD"

/-- `BIAService.getResourceRequirements`. -/
def getResourceRequirements (functionType : String) : JLookup :=
  if functionType = "product" then .str "Dedicated DR site, 24/7 support"
  else if functionType = "platform" then .str "Hot standby, business hours support"
  else if functionType = "support" then .str "Workarounds, extended hours support"
  else if functionType = "infrastructure" then .str "Real-time replication, immediate response"
  else if functionType = "compliance" then .str "Backup systems, priority restoration"
  else if functionType ∈ objectPrototypeKeys then .inherited functionType
  else .str "Standard backup procedures"

/-- `BIAService.getComplianceRequirements`. -/
def getComplianceRequirements (functionType : String) : JLookupList :=
  if functionType = "product" then .list ["PCI-DSS", "SOX Controls", "Data Privacy"]
  else if functionType = "platform" then
    .list ["SOX Controls", "Data Privacy", "Security Standards"]
  else if functionType = "support" then .list ["Data Privacy", "Access Controls"]
  else if functionType = "infrastructure" then
    .list ["Security Standards", "Audit Logging", "Change Management"]
  else if functionType = "compliance" then
    .list ["All Applicable Standards", "Regulatory Reporting", "Audit Trail"]
  else if functionType ∈ objectPrototypeKeys then .inherited functionType
  else .list ["Standard Controls"]

/-- `BIAService.getDataClassification` (a ternary, not a table lookup). -/
def getDataClassification (functionType : String) : String :=
  if functionType = "product" then "PII/Financial" else "Internal/Confidential"

/-- `BIAService.getRegulatoryImpact` (a ternary, not a table lookup). -/
def getRegulatoryImpact (functionType : String) : String :=
  if functionType = "product" then "High - Customer facing" else "Medium - Internal operations"

/-- `BIAService.getLegalEntity`. -/
def getLegalEntity (region : String) : JLookup :=
  if region = "na" then .str "Block, Inc. (Delaware)"
  else if region = "eu" then .str "Block Europe Limited (Ireland)"
  else if region = "apac" then .str "Block Japan KK"
  else if region ∈ objectPrototypeKeys then .inherited region
  else .str "TBD"

/-- `BIAService.getRegulatoryFramework`. -/
def getRegulatoryFramework (region : String) : JLookup :=
  if region = "na" then .str "SOX/FDIC"
  else if region = "eu" then .str "GDPR/DORA"
  else if region = "apac" then .str "JFSA (Japan)"
  else if region ∈ objectPrototypeKeys then .inherited region
  else .str "Local Regulations"

/-- `BIAService.getDataResidency`. -/
def getDataResidency (region : String) : JLookup :=
  if region = "na" then .str "US/Canada Only"
  else if region = "eu" then .str "EU Only"
  else if region = "apac" then .str "Local + Singapore"
  else if region ∈ objectPrototypeKeys then .inherited region
  else .str "Local Requirements"

/-- `BIAService.getLocalRequirements` (region-independent in the source). -/
def getLocalRequirements (_region : String) : List String :=
  ["Data localization", "Local incident reporting", "Regulatory notifications"]

/-- `BIAService.getRegionalRTO`. -/
def getRegionalRTO (region : String) : JLookup :=
  if region = "na" then .str "2 hours"
  else if region = "eu" then .str "4 hours"
  else if region = "apac" then .str "6 hours"
  else if region ∈ objectPrototypeKeys then .inherited region
  else .str "4 hours"

/-- `BIAService.getRegionalRPO`. -/
def getRegionalRPO (region : String) : JLookup :=
  if region = "na" then .str "30 minutes"
  else if region = "eu" then .str "1 hour"
  else if region = "apac" then .str "2 hours"
  else if region ∈ objectPrototypeKeys then .inherited region
  else .str "1 hour"

/-! ### Section builders

One structure per output section, mirroring the object literals of the six
`generate*Section` methods field by field.  `auto_populated` is carried
although it is the constant `true` everywhere. -/

/-- Output of `generatePersonnelSection`. -/
structure PersonnelSection where
  team_size : JScalar
  key_personnel : List PersonnelEntry
  escalation_policy : JScalar
  on_call_schedule : JScalar
  manager_chain : List String
  business_hours : JScalar
  confidence_score : ℚ
  data_sources : List String
  auto_populated : Bool
deriving DecidableEq, Repr

/-- `BIAService.generatePersonnelSection`. -/
def generatePersonnelSection (hrData : Option HRData) (pagerDutyData : Option PagerDutyData) :
    PersonnelSection where
  team_size := jsOr (hrData.bind fun h => h.team_size) (.str "Unknown")
  key_personnel := (hrData.bind fun h => h.key_personnel).getD
    [⟨"Tech Lead (TBD)", "Technical Leadership", "Senior Engineer"⟩,
     ⟨"Product Manager (TBD)", "Product Strategy", "Associate PM"⟩,
     ⟨"Operations Manager (TBD)", "Operations", "Senior Ops"⟩]
  escalation_policy := jsOr (pagerDutyData.bind fun p => p.escalation_policy) (.str "Standard escalation path")
  on_call_schedule := jsOr (pagerDutyData.bind fun p => p.on_call_schedule) (.str "24/7 rotation")
  manager_chain := (hrData.bind fun h => h.manager_chain).getD ["Team Lead", "Manager", "Director", "VP"]
  business_hours := jsOr (hrData.bind fun h => h.business_hours) (.str "24/7 operations")
  confidence_score :=
    min (jsOrQ (hrData.bind fun h => h.confidence_score) 0.5)
        (jsOrQ (pagerDutyData.bind fun p => p.confidence_score) 0.5)
  data_sources := ["HR Systems", "PagerDuty"]
  auto_populated := true

/-- Output of `calculateImpactMatrix`. -/
structure ImpactMatrix where
  low : String
  medium : String
  high : String
  critical : String
deriving DecidableEq, Repr

/-- `BIAService.calculateImpactMatrix` (ignores its argument in the source). -/
def calculateImpactMatrix (_financialData : Option FinancialData) : ImpactMatrix where
  low := "Minimal customer impact, <$100K revenue"
  medium := "Moderate customer impact, $100K-$1M revenue"
  high := "Significant customer impact, $1M-$10M revenue"
  critical := "Severe customer impact, >$10M revenue"

/-- The `impact_timeline` object; the JS keys `1_4_hours`, `4_24_hours`,
`1_7_days`, `7_plus_days` are renamed to Lean-legal identifiers. -/
structure ImpactTimeline where
  hours_1_4 : String
  hours_4_24 : String
  days_1_7 : String
  days_7_plus : String
deriving DecidableEq, Repr

/-- The `predictive_impact` sub-object of the business-impact section. -/
structure PredictiveImpact where
  twelve_month_forecast : JScalar
  risk_level : JScalar
  improvement_potential : JScalar
deriving DecidableEq, Repr

/-- Output of `generateBusinessImpactSection`. -/
structure BusinessImpactSection where
  daily_revenue_impact : JScalar
  monthly_revenue_impact : JScalar
  active_customers : JScalar
  transaction_volume : TransactionVolume
  customer_segments : CustomerSegments
  impact_timeline : ImpactTimeline
  predictive_impact : PredictiveImpact
  confidence_score : ℚ
  data_sources : List String
  auto_populated : Bool
deriving DecidableEq, Repr

/-- `BIAService.generateBusinessImpactSection`.  Note that
`confidence_score` is taken from the financial payload alone
(`financialData?.confidence_score || 0.6`); the predictions payload feeds
only the `predictive_impact` fields. -/
def generateBusinessImpactSection (financialData : Option FinancialData)
    (predictions : Option Predictions) : BusinessImpactSection :=
  let impactMatrix := calculateImpactMatrix financialData
  { daily_revenue_impact := jsOr (financialData.bind fun f => f.daily_revenue_impact) (.str "TBD")
    monthly_revenue_impact := jsOr (financialData.bind fun f => f.monthly_revenue_impact) (.str "TBD")
    active_customers := jsOr (financialData.bind fun f => f.active_customers) (.str "TBD")
    transaction_volume := (financialData.bind fun f => f.transaction_volume).getD
      ⟨.str "TBD", .str "TBD"⟩
    customer_segments := (financialData.bind fun f => f.customer_segments).getD
      ⟨.str "TBD", .str "TBD", .str "TBD"⟩
    impact_timeline :=
      ⟨impactMatrix.low, impactMatrix.medium, impactMatrix.high, impactMatrix.critical⟩
    predictive_impact :=
      { twelve_month_forecast :=
          jsOr ((predictions.bind fun p => p.performance_predictions).bind
            fun pp => pp.availability_forecast) (.str "TBD")
        risk_level :=
          jsOr ((predictions.bind fun p => p.risk_assessment).bind
            fun r => r.overall_risk) (.str "Medium")
        improvement_potential :=
          jsOr ((predictions.bind fun p => p.rto_analysis).bind
            fun r => r.improvement_potential) (.str "TBD") }
    confidence_score := jsOrQ (financialData.bind fun f => f.confidence_score) 0.6
    data_sources := ["Financial Systems", "Analytics APIs", "Rooster Predictions"]
    auto_populated := true }

/-- The `documentation` sub-object of the technology section. -/
structure DocumentationInfo where
  runbook_url : JScalar
  documentation_url : JScalar
  slack_channel : JScalar
deriving DecidableEq, Repr

/-- Output of `generateTechnologySection`. -/
structure TechnologySection where
  core_technologies : List String
  service_dependencies : List String
  reliability_tier : JScalar
  deployment_info : DeploymentInfo
  documentation : DocumentationInfo
  confidence_score : ℚ
  data_sources : List String
  auto_populated : Bool
deriving DecidableEq, Repr

/-- `BIAService.generateTechnologySection`. -/
def generateTechnologySection (registryData : Option RegistryData) : TechnologySection where
  core_technologies := (registryData.bind fun r => r.technology_stack).getD ["Unknown"]
  service_dependencies := (registryData.bind fun r => r.dependencies).getD ["Unknown"]
  reliability_tier := jsOr (registryData.bind fun r => r.reliability_tier) (.str "Unknown")
  deployment_info := (registryData.bind fun r => r.deployment_info).getD
    ⟨["Unknown"], .str "Unknown", .str "Unknown"⟩
  documentation :=
    { runbook_url := jsOr (registryData.bind fun r => r.runbook_url) (.str "TBD")
      documentation_url := jsOr (registryData.bind fun r => r.documentation_url) (.str "TBD")
      slack_channel := jsOr (registryData.bind fun r => r.slack_channel) (.str "TBD") }
  confidence_score := jsOrQ (registryData.bind fun r => r.confidence_score) 0.7
  data_sources := ["Registry (Snowflake)", "CMDB"]
  auto_populated := true

/-- The `rto` / `rpo` sub-object of the recovery section. -/
structure RtoBlock where
  current : JScalar
  target : JScalar
  confidence : ℚ
deriving DecidableEq, Repr

/-- The constant `recovery_timeline` sub-object. -/
structure RecoveryTimeline where
  detection : String
  initial_response : String
  mitigation : String
  full_recovery : String
deriving DecidableEq, Repr

/-- Output of `generateRecoverySection`. -/
structure RecoverySection where
  rto : RtoBlock
  rpo : RtoBlock
  current_availability : JScalar
  sla_target : JScalar
  mttr : JScalar
  recovery_timeline : RecoveryTimeline
  scenarios : Scenarios
  confidence_score : ℚ
  data_sources : List String
  auto_populated : Bool
deriving DecidableEq, Repr

/-- `BIAService.generateRecoverySection`. -/
def generateRecoverySection (predictions : Option Predictions)
    (monitoringData : Option MonitoringData) : RecoverySection where
  rto :=
    { current := jsOr ((predictions.bind fun p => p.rto_analysis).bind
        fun r => r.current_estimate) (.str "4 hours")
      target := jsOr ((predictions.bind fun p => p.rto_analysis).bind
        fun r => r.twelve_month_forecast) (.str "2 hours")
      confidence := jsOrQ ((predictions.bind fun p => p.rto_analysis).bind
        fun r => r.confidence_score) 0.7 }
  rpo :=
    { current := jsOr ((predictions.bind fun p => p.rpo_analysis).bind
        fun r => r.current_estimate) (.str "1 hour")
      target := jsOr ((predictions.bind fun p => p.rpo_analysis).bind
        fun r => r.twelve_month_forecast) (.str "30 minutes")
      confidence := jsOrQ ((predictions.bind fun p => p.rpo_analysis).bind
        fun r => r.confidence_score) 0.7 }
  current_availability := jsOr (monitoringData.bind fun m => m.current_availability) (.str "99.5%")
  sla_target := jsOr (monitoringData.bind fun m => m.sla_target) (.str "99.9%")
  mttr := jsOr ((monitoringData.bind fun m => m.performance_metrics).bind
    fun pm => pm.avg_response_time) (.str "TBD")
  recovery_timeline :=
    ⟨"0-15 minutes", "15-30 minutes", "30 minutes - 2 hours", "2-4 hours"⟩
  scenarios := (predictions.bind fun p => p.scenarios).getD
    { best_case := ⟨.str "TBD", .str "TBD", .str "25%"⟩
      most_likely := ⟨.str "TBD", .str "TBD", .str "50%"⟩
      worst_case := ⟨.str "TBD", .str "TBD", .str "25%"⟩ }
  confidence_score :=
    min (jsOrQ (predictions.bind fun p => p.confidence_overall) 0.7)
        (jsOrQ (monitoringData.bind fun m => m.confidence_score) 0.7)
  data_sources := ["Rooster Predictions", "Monitoring Systems", "Historical Data"]
  auto_populated := true

/-- Output of `generateRiskComplianceSection`. -/
structure RiskComplianceSection where
  compliance_requirements : JLookupList
  data_classification : String
  regulatory_impact : String
  security_considerations : List String
  confidence_score : ℚ
  data_sources : List String
  auto_populated : Bool
deriving DecidableEq, Repr

/-- `BIAService.generateRiskComplianceSection` (the registry argument is
accepted but never read in the source). -/
def generateRiskComplianceSection (_registryData : Option RegistryData)
    (functionType : String) : RiskComplianceSection where
  compliance_requirements := getComplianceRequirements functionType
  data_classification := getDataClassification functionType
  regulatory_impact := getRegulatoryImpact functionType
  security_considerations :=
    ["Data encryption in transit and at rest",
     "Access controls and authentication",
     "Audit logging and monitoring",
     "Incident response procedures"]
  confidence_score := 0.8
  data_sources := ["Compliance Database", "Security Policies"]
  auto_populated := true

/-- The `testing_requirements` sub-object of the ISO section. -/
structure TestingRequirements where
  frequency : String
  scope : String
  success_criteria : String
  next_test_date : String
deriving DecidableEq, Repr

/-- Output of `generateISO22301Section`. -/
structure ISO22301Section where
  business_function_classification : JLookup
  mtpd : JLookup
  mbco : JLookup
  resource_requirements : JLookup
  continuity_strategies : List String
  testing_requirements : TestingRequirements
  risk_assessment : RiskAssessment
  confidence_score : ℚ
  data_sources : List String
  auto_populated : Bool
deriving DecidableEq, Repr

/-- `BIAService.generateISO22301Section`; `nextTestDate` stands for the
clock-derived `getNextTestDate()` value. -/
def generateISO22301Section (functionType : String) (predictions : Option Predictions)
    (nextTestDate : String) : ISO22301Section where
  business_function_classification := getBCMClassification functionType
  mtpd := getMTPD functionType
  mbco := getMBCO functionType
  resource_requirements := getResourceRequirements functionType
  continuity_strategies :=
    ["Automated failover procedures",
     "Geographic redundancy",
     "Data backup and recovery",
     "Alternative processing sites"]
  testing_requirements :=
    ⟨"Quarterly", "Full system recovery", "RTO/RPO targets met", nextTestDate⟩
  risk_assessment := (predictions.bind fun p => p.risk_assessment).getD
    { overall_risk := some (.str "Medium")
      risk_factors := ["Standard operational risks"]
      mitigation_recommendations := ["Standard mitigation strategies"] }
  confidence_score := 0.85
  data_sources := ["ISO 22301 Framework", "BCM Policies", "Rooster Analysis"]
  auto_populated := true

/-- One requested regional overlay (only the `region` field is read). -/
structure RegionalOverlayRequest where
  region : String
deriving DecidableEq, Repr

/-- Output element of `generateRegionalOverlays`. -/
structure RegionalOverlay where
  region : String
  legal_entity : JLookup
  regulatory_framework : JLookup
  data_residency : JLookup
  local_requirements : List String
  regional_rto : JLookup
  regional_rpo : JLookup
  confidence_score : ℚ
  auto_populated : Bool
deriving DecidableEq, Repr

/-- `BIAService.generateRegionalOverlays`. -/
def generateRegionalOverlays (regionalOverlays : List RegionalOverlayRequest) :
    List RegionalOverlay :=
  regionalOverlays.map fun overlay =>
    { region := overlay.region
      legal_entity := getLegalEntity overlay.region
      regulatory_framework := getRegulatoryFramework overlay.region
      data_residency := getDataResidency overlay.region
      local_requirements := getLocalRequirements overlay.region
      regional_rto := getRegionalRTO overlay.region
      regional_rpo := getRegionalRPO overlay.region
      confidence_score := 0.75
      auto_populated := true }

/-! ### Data-source summary and confidence aggregator -/

/-- One entry of the `data_sources` summary.  `confidence` and
`last_updated` are copied without a fallback in the source, so they can be
`undefined`. -/
structure DataSourceEntry where
  name : String
  status : String
  confidence : Option ℚ
  last_updated : Option String
deriving DecidableEq, Repr

/-- `BIAService.generateDataSourceSummary`: one `connected` entry per
payload slot that is present (`if (autoPopulatedData.X) sources.push(...)`),
in the fixed source order of the code. -/
def generateDataSourceSummary (d : AutoPopulatedData) : List DataSourceEntry :=
  (match d.registry with
   | none => []
   | some r => [⟨"Registry (Snowflake)", "connected", r.confidence_score, r.last_updated⟩]) ++
  (match d.pagerDuty with
   | none => []
   | some p => [⟨"PagerDuty", "connected", p.confidence_score, p.last_updated⟩]) ++
  (match d.hr with
   | none => []
   | some h => [⟨"HR Systems", "connected", h.confidence_score, h.last_updated⟩]) ++
  (match d.financial with
   | none => []
   | some f => [⟨"Financial Systems", "connected", f.confidence_score, f.last_updated⟩]) ++
  (match d.monitoring with
   | none => []
   | some m => [⟨"Monitoring Systems", "connected", m.confidence_score, m.last_updated⟩]) ++
  (match d.predictions with
   | none => []
   | some p => [⟨"Rooster Predictions", "connected", p.confidence_overall, some p.generated_at⟩])

/-- The JS guard `if (x?.confidence_score) scores.push(...)`: the score is
collected exactly when the payload is present and the score field is
present and nonzero (JS truthiness). -/
def contribScore (v : Option ℚ) : List ℚ :=
  match v with
  | none => []
  | some q => if q = 0 then [] else [q]

/-- The `scores` array built by `calculateConfidenceScores`, in the push
order of the code. -/
def collectScores (d : AutoPopulatedData) : List ℚ :=
  contribScore (d.registry.bind fun r => r.confidence_score) ++
  contribScore (d.pagerDuty.bind fun p => p.confidence_score) ++
  contribScore (d.hr.bind fun h => h.confidence_score) ++
  contribScore (d.financial.bind fun f => f.confidence_score) ++
  contribScore (d.monitoring.bind fun m => m.confidence_score) ++
  contribScore (d.predictions.bind fun p => p.confidence_overall)

/-- The `confidence_assessment` object. -/
structure ConfidenceAssessment where
  overall_confidence : ℚ
  data_completeness : ℚ
  confidence_level : String
  recommendations : List String
deriving DecidableEq, Repr

/-- `BIAService.calculateConfidenceScores`.  Note that `confidence_level`
and `recommendations` are derived from the UNROUNDED mean
`overallConfidence`, while the reported `overall_confidence` is
`Math.round(overallConfidence * 100) / 100`. -/
def calculateConfidenceScores (d : AutoPopulatedData) : ConfidenceAssessment :=
  let scores := collectScores d
  let overallConfidence : ℚ :=
    if scores.length > 0 then scores.sum / scores.length else 0.5
  { overall_confidence := (jsRound (overallConfidence * 100) : ℚ) / 100
    data_completeness := ((scores.length : ℚ) / 6) * 100
    confidence_level :=
      if overallConfidence ≥ 0.8 then "High"
      else if overallConfidence ≥ 0.6 then "Medium"
      else "Low"
    recommendations :=
      if overallConfidence < 0.7 then
        ["Verify data source connections",
         "Update missing information",
         "Schedule data validation review"]
      else [] }

/-! ### Document assembly -/

/-- The assembled BIA document (object literal of `generateBIA`). -/
structure BiaDocument where
  id : String
  function_name : String
  function_type : String
  dri_name : String
  dri_team : String
  generated_at : String
  status : String
  version : String
  personnel_information : PersonnelSection
  business_impact : BusinessImpactSection
  technology_dependencies : TechnologySection
  recovery_requirements : RecoverySection
  risk_compliance : RiskComplianceSection
  iso_22301_compliance : ISO22301Section
  regional_overlays : List RegionalOverlay
  predictive_analysis : Option Predictions
  data_sources : List DataSourceEntry
  confidence_assessment : ConfidenceAssessment
deriving DecidableEq, Repr

/-- The `biaRequest` argument of `generateBIA`. -/
structure BiaRequest where
  functionName : String
  functionType : String
  driName : String
  driTeam : String
  regionalOverlays : Option (List RegionalOverlayRequest)
  autoPopulatedData : AutoPopulatedData
deriving DecidableEq, Repr

/-- `BIAService.generateBIA`.  `biaId`, `generatedAt` and `nextTestDate`
stand for the ambient `uuidv4()` / `new Date()` / `getNextTestDate()`
effects; `storeBIA` is persistence scaffolding that returns the id without
touching the document and is therefore not modelled. -/
def generateBIA (biaId generatedAt nextTestDate : String) (biaRequest : BiaRequest) :
    BiaDocument where
  id := biaId
  function_name := biaRequest.functionName
  function_type := biaRequest.functionType
  dri_name := biaRequest.driName
  dri_team := biaRequest.driTeam
  generated_at := generatedAt
  status := "draft"
  version := "1.0"
  personnel_information :=
    generatePersonnelSection biaRequest.autoPopulatedData.hr biaRequest.autoPopulatedData.pagerDuty
  business_impact :=
    generateBusinessImpactSection biaRequest.autoPopulatedData.financial
      biaRequest.autoPopulatedData.predictions
  technology_dependencies := generateTechnologySection biaRequest.autoPopulatedData.registry
  recovery_requirements :=
    generateRecoverySection biaRequest.autoPopulatedData.predictions
      biaRequest.autoPopulatedData.monitoring
  risk_compliance :=
    generateRiskComplianceSection biaRequest.autoPopulatedData.registry biaRequest.functionType
  iso_22301_compliance :=
    generateISO22301Section biaRequest.functionType biaRequest.autoPopulatedData.predictions
      nextTestDate
  regional_overlays :=
    match biaRequest.regionalOverlays with
    | some overlays => generateRegionalOverlays overlays
    | none => []
  predictive_analysis := biaRequest.autoPopulatedData.predictions
  data_sources := generateDataSourceSummary biaRequest.autoPopulatedData
  confidence_assessment := calculateConfidenceScores biaRequest.autoPopulatedData

/-! ### RoosterService (predictive-analysis integration) -/

/-- The raw JSON object read back from the Rooster subprocess, restricted
to the fields `formatRoosterOutput` reads; every field is optional since
the JSON is externally produced. -/
structure RoosterRaw where
  current_rto : Option JScalar
  confidence : Option ℚ
  forecast_rto : Option JScalar
  improvement : Option JScalar
  current_rpo : Option JScalar
  rpo_confidence : Option ℚ
  forecast_rpo : Option JScalar
  rpo_improvement : Option JScalar
  risk_level : Option JScalar
  risk_factors : Option (List String)
  recommendations : Option (List String)
  availability_forecast : Option JScalar
  capacity_forecast : Option JScalar
  scaling_needs : Option JScalar
  best_case_rto : Option JScalar
  best_case_rpo : Option JScalar
  likely_rto : Option JScalar
  likely_rpo : Option JScalar
  worst_case_rto : Option JScalar
  worst_case_rpo : Option JScalar
  data_sources : Option (List String)
  version : Option String
  overall_confidence : Option ℚ
deriving DecidableEq, Repr

/-- `RoosterService.formatRoosterOutput`; `generatedAt` stands for the
`new Date().toISOString()` stamp. -/
def formatRoosterOutput (roosterData : RoosterRaw) (generatedAt : String) : Predictions where
  rto_analysis := some
    { current_estimate := some (jsOr roosterData.current_rto (.str "45 minutes"))
      confidence_score := some (jsOrQ roosterData.confidence 0.8)
      twelve_month_forecast := some (jsOr roosterData.forecast_rto (.str "35 minutes"))
      improvement_potential := some (jsOr roosterData.improvement (.str "22%")) }
  rpo_analysis := some
    { current_estimate := some (jsOr roosterData.current_rpo (.str "15 minutes"))
      confidence_score := some (jsOrQ roosterData.rpo_confidence 0.75)
      twelve_month_forecast := some (jsOr roosterData.forecast_rpo (.str "10 minutes"))
      improvement_potential := some (jsOr roosterData.rpo_improvement (.str "33%")) }
  risk_assessment := some
    { overall_risk := some (jsOr roosterData.risk_level (.str "Medium"))
      risk_factors := roosterData.risk_factors.getD
        ["Elevated latency trends", "Dependency complexity", "Limited redundancy"]
      mitigation_recommendations := roosterData.recommendations.getD
        ["Implement circuit breakers", "Add regional failover", "Optimize database queries"] }
  performance_predictions := some
    { availability_forecast := some (jsOr roosterData.availability_forecast (.str "99.92%"))
      capacity_utilization := some (jsOr roosterData.capacity_forecast (.str "68%"))
      scaling_requirements := some (jsOr roosterData.scaling_needs (.str "Moderate growth expected")) }
  scenarios := some
    { best_case :=
        ⟨jsOr roosterData.best_case_rto (.str "25 minutes"),
         jsOr roosterData.best_case_rpo (.str "5 minutes"), .str "25%"⟩
      most_likely :=
        ⟨jsOr roosterData.likely_rto (.str "35 minutes"),
         jsOr roosterData.likely_rpo (.str "10 minutes"), .str "50%"⟩
      worst_case :=
        ⟨jsOr roosterData.worst_case_rto (.str "60 minutes"),
         jsOr roosterData.worst_case_rpo (.str "30 minutes"), .str "25%"⟩ }
  data_sources := roosterData.data_sources.getD
    ["Historical incident data", "Performance metrics", "Dependency analysis",
     "Capacity planning models"]
  generated_at := generatedAt
  rooster_version := jsOrS roosterData.version "2.0"
  confidence_overall := some (jsOrQ roosterData.overall_confidence 0.82)
  note := none

/-- `RoosterService.getFallbackPredictions` (the `functionName` argument is
only logged in the source). -/
def getFallbackPredictions (_functionName : String) (generatedAt : String) : Predictions where
  rto_analysis := some
    { current_estimate := some (.str "45 minutes")
      confidence_score := some 0.6
      twelve_month_forecast := some (.str "40 minutes")
      improvement_potential := some (.str "11%") }
  rpo_analysis := some
    { current_estimate := some (.str "15 minutes")
      confidence_score := some 0.6
      twelve_month_forecast := some (.str "12 minutes")
      improvement_potential := some (.str "20%") }
  risk_assessment := some
    { overall_risk := some (.str "Medium")
      risk_factors :=
        ["Limited historical data", "Standard architecture patterns",
         "Typical operational complexity"]
      mitigation_recommendations :=
        ["Establish baseline monitoring", "Implement standard DR procedures",
         "Regular testing and validation"] }
  performance_predictions := some
    { availability_forecast := some (.str "99.5%")
      capacity_utilization := some (.str "70%")
      scaling_requirements := some (.str "Standard growth patterns") }
  scenarios := some
    { best_case := ⟨.str "30 minutes", .str "8 minutes", .str "25%"⟩
      most_likely := ⟨.str "45 minutes", .str "15 minutes", .str "50%"⟩
      worst_case := ⟨.str "90 minutes", .str "30 minutes", .str "25%"⟩ }
  data_sources := ["Industry benchmarks", "Standard patterns", "Conservative estimates"]
  generated_at := generatedAt
  rooster_version := "fallback"
  confidence_overall := some 0.6
  note := some "Fallback predictions used - integrate with Rooster for enhanced accuracy"

/-- How one invocation of `executeRoosterPython` ends, as observed by the
`await` in `generatePredictions`: the promise either resolves with the
parsed and formatted output (subprocess exit code 0 and readable JSON), or
rejects with a spawn error, a non-zero exit, or an output read/parse
failure. -/
inductive RoosterOutcome where
  | spawnError : String → RoosterOutcome
  | exitNonZero : Int → String → RoosterOutcome
  | outputUnreadable : String → RoosterOutcome
  | output : RoosterRaw → RoosterOutcome
deriving DecidableEq, Repr

/-- `RoosterService.generatePredictions`, value part: any rejection of
`executeRoosterPython` is caught and replaced by
`getFallbackPredictions(functionName)`. -/
def generatePredictions (outcome : RoosterOutcome) (functionName generatedAt : String) :
    Predictions :=
  match outcome with
  | .output raw => formatRoosterOutput raw generatedAt
  | _ => getFallbackPredictions functionName generatedAt

/-- State of the two temporary files (`temp_input_*.json`,
`temp_output_*.json`) after `generatePredictions` returns. -/
structure TempFileState where
  inputCreated : Bool
  inputRemains : Bool
  outputCreated : Bool
  outputRemains : Bool
deriving DecidableEq, Repr

/-- The cleanup contract of the spec: every temporary file that was created
during the invocation has been removed by the time the call returns. -/
def TempFileState.cleanedUp (s : TempFileState) : Bool :=
  (!s.inputCreated || !s.inputRemains) && (!s.outputCreated || !s.outputRemains)

/-- `RoosterService.generatePredictions`, file-effect part, following the
control flow of the source: the input file is written first; on a resolved
`executeRoosterPython` (the subprocess has produced a readable output file)
the `try { unlink; unlink } catch` block runs and removes both files; on a
rejection the `await` throws past that block straight into the outer
`catch`, which returns the fallback WITHOUT running the cleanup, so the
input file (and the output file, whenever the subprocess had created one,
`outputCreated`) is left on disk. -/
def generatePredictionsRun (outcome : RoosterOutcome) (outputCreated : Bool)
    (functionName generatedAt : String) : Predictions × TempFileState :=
  match outcome with
  | .output raw =>
      (formatRoosterOutput raw generatedAt,
       { inputCreated := true, inputRemains := false
         outputCreated := true, outputRemains := false })
  | _ =>
      (getFallbackPredictions functionName generatedAt,
       { inputCreated := true, inputRemains := true
         outputCreated := outputCreated, outputRemains := outputCreated })

/-! ### Approval route (`POST /api/bia/approve`) -/

/-- The state the approval route can observe and mutate for one stored
document: its status, the number of Fusion pushes performed on its behalf,
and the number of audit entries written for it.  The status write is the
contract of the persistence collaborator behind the `updateBIAStatus`
scaffolding (`updateStatus(id, status, comment)` in the spec). -/
structure ApprovalState where
  status : String
  fusionPushes : Nat
  auditEntries : Nat
deriving DecidableEq, Repr

/-- Possible outcomes of an approval request. -/
inductive ApproveOutcome where
  | success : ApproveOutcome
  | invalidTransition : ApproveOutcome
deriving DecidableEq, Repr

/-- The handler of `POST /api/bia/approve` in `dataSourceController.js`:
after validating only the presence of `biaId`, it unconditionally calls
`pushToFusion` and then `updateBIAStatus(biaId, "approved", comments)`.
No check of the document's current status exists anywhere on this path,
and no audit entry is written. -/
def approveBIA (st : ApprovalState) : ApproveOutcome × ApprovalState :=
  (ApproveOutcome.success,
   { status := "approved", fusionPushes := st.fusionPushes + 1,
     auditEntries := st.auditEntries })

/-! ### Concrete inputs used in the theorems -/

/-- The total-failure input: every payload slot is `null`. -/
def allFailedData : AutoPopulatedData := ⟨none, none, none, none, none, none⟩

/-- A registry payload that carries a confidence score and nothing else. -/
def registryWithScore (q : ℚ) : RegistryData :=
  ⟨none, none, none, none, none, none, none, some q, none⟩

/-- A PagerDuty payload that carries a confidence score and nothing else. -/
def pagerDutyWithScore (q : ℚ) : PagerDutyData := ⟨none, none, some q, none⟩

/-- An HR payload that carries a confidence score and nothing else. -/
def hrWithScore (q : ℚ) : HRData := ⟨none, none, none, none, some q, none⟩

/-- A financial payload that carries a confidence score and nothing else. -/
def financialWithScore (q : ℚ) : FinancialData := ⟨none, none, none, none, none, some q, none⟩

/-- A monitoring payload that carries a confidence score and nothing else. -/
def monitoringWithScore (q : ℚ) : MonitoringData := ⟨none, none, none, some q, none⟩

/-- A predictions payload that carries an overall confidence and nothing else. -/
def predictionsWithScore (q : ℚ) : Predictions :=
  ⟨none, none, none, none, none, [], "", "2.0", some q, none⟩

/-- The full-success scenario of the spec: all six sources succeed with
confidence scores 0.9, 0.8, 0.6, 0.75, 0.9, 0.82. -/
def fullSuccessData : AutoPopulatedData :=
  ⟨some (registryWithScore 0.9), some (pagerDutyWithScore 0.8), some (hrWithScore 0.6),
   some (financialWithScore 0.75), some (monitoringWithScore 0.9),
   some (predictionsWithScore 0.82)⟩

/-- Only the registry source succeeds, and its payload carries
`confidence_score` exactly 0. -/
def zeroRegistryData : AutoPopulatedData :=
  ⟨some (registryWithScore 0), none, none, none, none, none⟩

/-- Only the registry source succeeds, with score 0.9. -/
def oneSourceData : AutoPopulatedData :=
  ⟨some (registryWithScore 0.9), none, none, none, none, none⟩

/-- The document `generateBIA` produces from the total-failure input, for
arbitrary request metadata and ambient id/timestamps. -/
def allFailedDoc (biaId generatedAt nextTestDate functionName functionType driName
    driTeam : String) : BiaDocument :=
  generateBIA biaId generatedAt nextTestDate
    { functionName := functionName, functionType := functionType, driName := driName,
      driTeam := driTeam, regionalOverlays := none, autoPopulatedData := allFailedData }

/-- A payload slot contributes no score to the aggregator: the payload is
absent, or its score field is absent, or the score is exactly 0. -/
def Scoreless (v : Option ℚ) : Prop := v = none ∨ v = some 0

/-- Spec-side (for claim C4): 1 for a fulfilled slot, 0 for a rejected one. -/
def optCount {α : Type} : Option α → ℕ
  | none => 0
  | some _ => 1

/-- Spec-side (for claim C4): the number of sources that succeeded, i.e.
the size of the subset S of the spec. -/
def numPresent (d : AutoPopulatedData) : ℕ :=
  optCount d.registry + optCount d.pagerDuty + optCount d.hr + optCount d.financial +
    optCount d.monitoring + optCount d.predictions

/-- Spec-side (for claim C4): the confidence scores carried by the
succeeding sources, in source order. -/
def sourceScores (d : AutoPopulatedData) : List ℚ :=
  (d.registry.bind fun r => r.confidence_score).toList ++
  (d.pagerDuty.bind fun p => p.confidence_score).toList ++
  (d.hr.bind fun h => h.confidence_score).toList ++
  (d.financial.bind fun f => f.confidence_score).toList ++
  (d.monitoring.bind fun m => m.confidence_score).toList ++
  (d.predictions.bind fun p => p.confidence_overall).toList

/-- Spec-side (for claim C4): arithmetic mean of the present scores, with
the default 0.5 when no source contributed. -/
def meanOrHalf (l : List ℚ) : ℚ := if l.length > 0 then l.sum / l.length else 0.5

/-! ## Helper lemmas -/

/-- A scoreless slot pushes nothing onto the `scores` array. -/
theorem contribScore_eq_nil {v : Option ℚ} (h : Scoreless v) : contribScore v = [] := by
  rcases h with rfl | rfl <;> simp [contribScore]

/-- For a slot whose payload, when present, carries a nonzero score, the
truthiness guard of `calculateConfidenceScores` collects exactly the
carried score, and the number of collected scores equals the number of
fulfilled payloads (0 or 1). -/
theorem contribScore_toList {α : Type} (x : Option α) (f : α → Option ℚ)
    (hx : ∀ a, x = some a → ∃ q, f a = some q ∧ q ≠ 0) :
    contribScore (x.bind f) = (x.bind f).toList ∧
    (x.bind f).toList.length = optCount x := by
  cases x with
  | none => exact ⟨rfl, rfl⟩
  | some a =>
    obtain ⟨q, hq, hq0⟩ := hx a rfl
    simp [contribScore, optCount, hq, hq0]

/-! ## Claim theorems -/

/-- Claim C1 (confirmed): on the input where all six source adapters fail
(every payload slot absent), `generateBIA` still returns a document in
which all six sections are present (structurally guaranteed: `BiaDocument`
is total in all six section fields) with every source-fed field populated
by the documented fallback placeholders, and whose `confidence_assessment`
has `confidence_level` Low and `data_completeness` 0. -/
theorem claim_C1_total_degradation (i g n fn ft dn dt : String) :
    (allFailedDoc i g n fn ft dn dt).personnel_information =
      { team_size := .str "Unknown"
        key_personnel :=
          [⟨"Tech Lead (TBD)", "Technical Leadership", "Senior Engineer"⟩,
           ⟨"Product Manager (TBD)", "Product Strategy", "Associate PM"⟩,
           ⟨"Operations Manager (TBD)", "Operations", "Senior Ops"⟩]
        escalation_policy := .str "Standard escalation path"
        on_call_schedule := .str "24/7 rotation"
        manager_chain := ["Team Lead", "Manager", "Director", "VP"]
        business_hours := .str "24/7 operations"
        confidence_score := 1/2
        data_sources := ["HR Systems", "PagerDuty"]
        auto_populated := true } ∧
    (allFailedDoc i g n fn ft dn dt).business_impact =
      { daily_revenue_impact := .str "TBD"
        monthly_revenue_impact := .str "TBD"
        active_customers := .str "TBD"
        transaction_volume := ⟨.str "TBD", .str "TBD"⟩
        customer_segments := ⟨.str "TBD", .str "TBD", .str "TBD"⟩
        impact_timeline :=
          ⟨"Minimal customer impact, <$100K revenue",
           "Moderate customer impact, $100K-$1M revenue",
           "Significant customer impact, $1M-$10M revenue",
           "Severe customer impact, >$10M revenue"⟩
        predictive_impact := ⟨.str "TBD", .str "Medium", .str "TBD"⟩
        confidence_score := 3/5
        data_sources := ["Financial Systems", "Analytics APIs", "Rooster Predictions"]
        auto_populated := true } ∧
    (allFailedDoc i g n fn ft dn dt).technology_dependencies =
      { core_technologies := ["Unknown"]
        service_dependencies := ["Unknown"]
        reliability_tier := .str "Unknown"
        deployment_info := ⟨["Unknown"], .str "Unknown", .str "Unknown"⟩
        documentation := ⟨.str "TBD", .str "TBD", .str "TBD"⟩
        confidence_score := 7/10
        data_sources := ["Registry (Snowflake)", "CMDB"]
        auto_populated := true } ∧
    (allFailedDoc i g n fn ft dn dt).recovery_requirements =
      { rto := ⟨.str "4 hours", .str "2 hours", 7/10⟩
        rpo := ⟨.str "1 hour", .str "30 minutes", 7/10⟩
        current_availability := .str "99.5%"
        sla_target := .str "99.9%"
        mttr := .str "TBD"
        recovery_timeline :=
          ⟨"0-15 minutes", "15-30 minutes", "30 minutes - 2 hours", "2-4 hours"⟩
        scenarios :=
          { best_case := ⟨.str "TBD", .str "TBD", .str "25%"⟩
            most_likely := ⟨.str "TBD", .str "TBD", .str "50%"⟩
            worst_case := ⟨.str "TBD", .str "TBD", .str "25%"⟩ }
        confidence_score := 7/10
        data_sources := ["Rooster Predictions", "Monitoring Systems", "Historical Data"]
        auto_populated := true } ∧
    (allFailedDoc i g n fn ft dn dt).risk_compliance = generateRiskComplianceSection none ft ∧
    (allFailedDoc i g n fn ft dn dt).risk_compliance.confidence_score = 4/5 ∧
    (allFailedDoc i g n fn ft dn dt).iso_22301_compliance = generateISO22301Section ft none n ∧
    (allFailedDoc i g n fn ft dn dt).iso_22301_compliance.risk_assessment =
      { overall_risk := some (.str "Medium")
        risk_factors := ["Standard operational risks"]
        mitigation_recommendations := ["Standard mitigation strategies"] } ∧
    (allFailedDoc i g n fn ft dn dt).iso_22301_compliance.confidence_score = 17/20 ∧
    (allFailedDoc i g n fn ft dn dt).predictive_analysis = none ∧
    (allFailedDoc i g n fn ft dn dt).data_sources = [] ∧
    (allFailedDoc i g n fn ft dn dt).regional_overlays = [] ∧
    (allFailedDoc i g n fn ft dn dt).confidence_assessment =
      { overall_confidence := 1/2, data_completeness := 0, confidence_level := "Low",
        recommendations := ["Verify data source connections", "Update missing information",
          "Schedule data validation review"] } := by
  refine ⟨?_, ?_, ?_, ?_, rfl,
    by norm_num [allFailedDoc, generateBIA, generateRiskComplianceSection], rfl,
    by simp [allFailedDoc, generateBIA, generateISO22301Section, allFailedData],
    by norm_num [allFailedDoc, generateBIA, generateISO22301Section], rfl, rfl, rfl, ?_⟩
  · simp [allFailedDoc, generateBIA, generatePersonnelSection, allFailedData, jsOr, jsOrQ]
    norm_num
  · simp [allFailedDoc, generateBIA, generateBusinessImpactSection, calculateImpactMatrix,
      allFailedData, jsOr, jsOrQ]
    norm_num
  · simp [allFailedDoc, generateBIA, generateTechnologySection, allFailedData, jsOr, jsOrQ]
    norm_num
  · simp [allFailedDoc, generateBIA, generateRecoverySection, allFailedData, jsOr, jsOrQ]
    norm_num
  · simp [allFailedDoc, generateBIA, calculateConfidenceScores, collectScores, contribScore,
      allFailedData]
    norm_num [jsRound]

/-- Claim C2 counterexample: the business-impact section does NOT take the
minimum of the financial and predictions scores.  With financial
confidence 0.9 and predictions confidence 0.3 the claim demands
min 0.9 0.3 = 0.3, but the code returns the financial score 0.9
(`financialData?.confidence_score || 0.6`, BIAService.js line 119). -/
theorem claim_C2_counterexample :
    (generateBusinessImpactSection (some (financialWithScore 0.9))
      (some (predictionsWithScore 0.3))).confidence_score ≠ min (9/10 : ℚ) (3/10) ∧
    (generateBusinessImpactSection (some (financialWithScore 0.9))
      (some (predictionsWithScore 0.3))).confidence_score = 9/10 := by
  have e : (generateBusinessImpactSection (some (financialWithScore 0.9))
      (some (predictionsWithScore 0.3))).confidence_score = 9/10 := by
    norm_num [generateBusinessImpactSection, financialWithScore, jsOrQ]
  exact ⟨by rw [e]; norm_num, e⟩

/-- Claim C2 as amended: the per-section confidence policy the code
actually implements.  Personnel and recovery take the minimum of their two
source scores after substituting the per-section default (0.5 resp. 0.7)
for a failed source — so with exactly one successful source they return
min(score, default), not the source's score.  Business impact takes the
financial score alone (default 0.6) and ignores the predictions score.
Technology inherits the registry score (default 0.7).  The rule-derived
risk/compliance and ISO sections use the fixed constants 0.8 and 0.85,
which lie outside the claimed default range. -/
theorem claim_C2_section_confidence_policy
    (h : HRData) (p : PagerDutyData) (r : RegistryData) (f : FinancialData)
    (m : MonitoringData) (pr : Predictions) (qh qp qr qf qm qpr : ℚ)
    (hh : h.confidence_score = some qh) (hh0 : qh ≠ 0)
    (hp : p.confidence_score = some qp) (hp0 : qp ≠ 0)
    (hr : r.confidence_score = some qr) (hr0 : qr ≠ 0)
    (hf : f.confidence_score = some qf) (hf0 : qf ≠ 0)
    (hm : m.confidence_score = some qm) (hm0 : qm ≠ 0)
    (hpr : pr.confidence_overall = some qpr) (hpr0 : qpr ≠ 0) :
    (generatePersonnelSection (some h) (some p)).confidence_score = min qh qp ∧
    (generatePersonnelSection (some h) none).confidence_score = min qh (1/2) ∧
    (generatePersonnelSection none (some p)).confidence_score = min (1/2) qp ∧
    (generatePersonnelSection none none).confidence_score = 1/2 ∧
    (generateRecoverySection (some pr) (some m)).confidence_score = min qpr qm ∧
    (generateRecoverySection (some pr) none).confidence_score = min qpr (7/10) ∧
    (generateRecoverySection none (some m)).confidence_score = min (7/10) qm ∧
    (generateRecoverySection none none).confidence_score = 7/10 ∧
    (generateBusinessImpactSection (some f) (some pr)).confidence_score = qf ∧
    (generateBusinessImpactSection (some f) none).confidence_score = qf ∧
    (generateBusinessImpactSection none (some pr)).confidence_score = 3/5 ∧
    (generateBusinessImpactSection none none).confidence_score = 3/5 ∧
    (generateTechnologySection (some r)).confidence_score = qr ∧
    (generateTechnologySection none).confidence_score = 7/10 ∧
    (∀ ft ntd, (generateRiskComplianceSection (some r) ft).confidence_score = 4/5 ∧
      (generateISO22301Section ft (some pr) ntd).confidence_score = 17/20) := by
  refine ⟨?_, ?_, ?_, ?_, ?_, ?_, ?_, ?_, ?_, ?_, ?_, ?_, ?_, ?_, fun ft ntd => ⟨?_, ?_⟩⟩ <;>
    norm_num [generatePersonnelSection, generateRecoverySection, generateBusinessImpactSection,
      generateTechnologySection, generateRiskComplianceSection, generateISO22301Section,
      jsOrQ, hh, hp, hr, hf, hm, hpr, hh0, hp0, hr0, hf0, hm0, hpr0]

/-- Witness for claim C2's amended theorem at concrete payloads. -/
theorem claim_C2_section_confidence_policy_witness :
    (generatePersonnelSection (some (hrWithScore 0.9))
      (some (pagerDutyWithScore 0.4))).confidence_score = min (9/10) (2/5) ∧
    (generatePersonnelSection (some (hrWithScore 0.9)) none).confidence_score =
      min (9/10) (1/2) ∧
    (generateBusinessImpactSection (some (financialWithScore 0.9))
      (some (predictionsWithScore 0.3))).confidence_score = 9/10 := by
  have t := claim_C2_section_confidence_policy (hrWithScore 0.9) (pagerDutyWithScore 0.4)
    (registryWithScore 0.5) (financialWithScore 0.9) (monitoringWithScore 0.5)
    (predictionsWithScore 0.3) (9/10) (2/5) (1/2) (9/10) (1/2) (3/10)
    (by norm_num [hrWithScore]) (by norm_num) (by norm_num [pagerDutyWithScore]) (by norm_num)
    (by norm_num [registryWithScore]) (by norm_num) (by norm_num [financialWithScore])
    (by norm_num) (by norm_num [monitoringWithScore]) (by norm_num)
    (by norm_num [predictionsWithScore]) (by norm_num)
  exact ⟨t.1, t.2.1, t.2.2.2.2.2.2.2.2.1⟩

/-- Claim C3 counterexample: in the full-success scenario with scores
0.9, 0.8, 0.6, 0.75, 0.9, 0.82 the claim demands `confidence_level` High,
but the code computes the level from the UNROUNDED mean 0.795 < 0.8 and
returns Medium. -/
theorem claim_C3_counterexample :
    (calculateConfidenceScores fullSuccessData).confidence_level ≠ "High" ∧
    (calculateConfidenceScores fullSuccessData).confidence_level = "Medium" := by
  have e : (calculateConfidenceScores fullSuccessData).confidence_level = "Medium" := by
    simp [calculateConfidenceScores, collectScores, contribScore, fullSuccessData,
      registryWithScore, pagerDutyWithScore, hrWithScore, financialWithScore,
      monitoringWithScore, predictionsWithScore]
    norm_num
  exact ⟨by rw [e]; decide, e⟩

/-- Claim C3 as amended: in the full-success scenario the reported
`overall_confidence` is round(0.795, 2) = 0.80 and `data_completeness` is
100, but `confidence_level` is Medium: the band comparison (written as an
inclusive ≥ 0.8 in the source) is applied to the unrounded mean, which is
0.795 here, not to the rounded 0.80. -/
theorem claim_C3_full_success_scenario :
    (calculateConfidenceScores fullSuccessData).overall_confidence = 4/5 ∧
    (calculateConfidenceScores fullSuccessData).data_completeness = 100 ∧
    (calculateConfidenceScores fullSuccessData).confidence_level = "Medium" := by
  refine ⟨?_, ?_, ?_⟩ <;>
  · simp [calculateConfidenceScores, collectScores, contribScore, fullSuccessData,
      registryWithScore, pagerDutyWithScore, hrWithScore, financialWithScore,
      monitoringWithScore, predictionsWithScore]
    norm_num [jsRound]

/-- Claim C4 counterexample: the registry source succeeds but its payload
carries `confidence_score` exactly 0, so S has one element and the claim
demands `data_completeness` 1/6 × 100; the code's truthiness guard skips
the zero score and reports 0. -/
theorem claim_C4_counterexample :
    (calculateConfidenceScores zeroRegistryData).data_completeness = 0 ∧
    ((1 : ℚ) / 6) * 100 ≠ 0 := by
  constructor
  · simp [calculateConfidenceScores, collectScores, contribScore, zeroRegistryData,
      registryWithScore]
  · norm_num

/-- Claim C4 as amended: for every subset S of sources succeeding such
that each succeeding payload carries a nonzero confidence score,
`data_completeness` is exactly |S|/6 × 100 and `overall_confidence` is the
mean of exactly the scores contributed by S (0.5 when S is empty), rounded
to two decimals; absent sections do not pull the mean down. -/
theorem claim_C4_partial_degradation (d : AutoPopulatedData)
    (h1 : ∀ r, d.registry = some r → ∃ q, r.confidence_score = some q ∧ q ≠ 0)
    (h2 : ∀ p, d.pagerDuty = some p → ∃ q, p.confidence_score = some q ∧ q ≠ 0)
    (h3 : ∀ h, d.hr = some h → ∃ q, h.confidence_score = some q ∧ q ≠ 0)
    (h4 : ∀ f, d.financial = some f → ∃ q, f.confidence_score = some q ∧ q ≠ 0)
    (h5 : ∀ m, d.monitoring = some m → ∃ q, m.confidence_score = some q ∧ q ≠ 0)
    (h6 : ∀ p, d.predictions = some p → ∃ q, p.confidence_overall = some q ∧ q ≠ 0) :
    (calculateConfidenceScores d).data_completeness = ((numPresent d : ℚ) / 6) * 100 ∧
    (calculateConfidenceScores d).overall_confidence =
      (jsRound (meanOrHalf (sourceScores d) * 100) : ℚ) / 100 := by
  have e : collectScores d = sourceScores d := by
    rw [collectScores, sourceScores, (contribScore_toList _ _ h1).1,
      (contribScore_toList _ _ h2).1, (contribScore_toList _ _ h3).1,
      (contribScore_toList _ _ h4).1, (contribScore_toList _ _ h5).1,
      (contribScore_toList _ _ h6).1]
  have el : (sourceScores d).length = numPresent d := by
    rw [sourceScores, numPresent]
    simp only [List.length_append, (contribScore_toList _ _ h1).2,
      (contribScore_toList _ _ h2).2, (contribScore_toList _ _ h3).2,
      (contribScore_toList _ _ h4).2, (contribScore_toList _ _ h5).2,
      (contribScore_toList _ _ h6).2]
  constructor
  · simp only [calculateConfidenceScores, e, el]
  · simp only [calculateConfidenceScores, meanOrHalf, e]

/-- Witness for claim C4's amended theorem: only the registry source
succeeds, with score 0.9. -/
theorem claim_C4_partial_degradation_witness :
    (calculateConfidenceScores oneSourceData).data_completeness =
      ((numPresent oneSourceData : ℚ) / 6) * 100 ∧
    (calculateConfidenceScores oneSourceData).overall_confidence =
      (jsRound (meanOrHalf (sourceScores oneSourceData) * 100) : ℚ) / 100 :=
  claim_C4_partial_degradation oneSourceData
    (fun a ha => by cases ha; exact ⟨9/10, by norm_num [registryWithScore], by norm_num⟩)
    (fun a ha => Option.noConfusion ha) (fun a ha => Option.noConfusion ha)
    (fun a ha => Option.noConfusion ha) (fun a ha => Option.noConfusion ha)
    (fun a ha => Option.noConfusion ha)

/-- Claim C5 counterexample: the unknown keys "constructor" and
"toString" are outside the defined keys, yet the bracket lookups return
the truthy member inherited from the object's prototype — the `||`
fallback never fires — instead of the documented default row / TBD
placeholder demanded by the claim. -/
theorem claim_C5_counterexample :
    getBCMClassification "constructor" = JLookup.inherited "constructor" ∧
    getBCMClassification "constructor" ≠ JLookup.str "To Be Determined" ∧
    getLegalEntity "toString" = JLookup.inherited "toString" ∧
    getLegalEntity "toString" ≠ JLookup.str "TBD" :=
  ⟨by decide, by decide, by decide, by decide⟩

/-- Claim C5 as amended: every rule-table lookup is a total function (no
input can raise an error), and for every `function_type` outside the five
defined keys and every region code outside na/eu/apac that, additionally,
is not the name of an `Object.prototype` member, the lookup returns the
documented default row or TBD placeholder.  For a prototype-member name
the lookup instead returns the truthy inherited member, still without
raising an error. -/
theorem claim_C5_unknown_key_fallback (functionType region : String)
    (hft : functionType ∉ ["product", "platform", "support", "infrastructure", "compliance"])
    (hftp : functionType ∉ objectPrototypeKeys)
    (hreg : region ∉ ["na", "eu", "apac"])
    (hregp : region ∉ objectPrototypeKeys) :
    getBCMClassification functionType = .str "To Be Determined" ∧
    getMTPD functionType = .str "4 hours" ∧
    getMBCO functionType = .str "60% capacity within MTPD" ∧
    getResourceRequirements functionType = .str "Standard backup procedures" ∧
    getComplianceRequirements functionType = .list ["Standard Controls"] ∧
    getDataClassification functionType = "Internal/Confidential" ∧
    getRegulatoryImpact functionType = "Medium - Internal operations" ∧
    getLegalEntity region = .str "TBD" ∧
    getRegulatoryFramework region = .str "Local Regulations" ∧
    getDataResidency region = .str "Local Requirements" ∧
    getRegionalRTO region = .str "4 hours" ∧
    getRegionalRPO region = .str "1 hour" := by
  simp only [List.mem_cons, List.not_mem_nil, or_false, not_or] at hft hreg
  obtain ⟨h1, h2, h3, h4, h5⟩ := hft
  obtain ⟨g1, g2, g3⟩ := hreg
  simp [getBCMClassification, getMTPD, getMBCO, getResourceRequirements,
    getComplianceRequirements, getDataClassification, getRegulatoryImpact,
    getLegalEntity, getRegulatoryFramework, getDataResidency, getRegionalRTO,
    getRegionalRPO, h1, h2, h3, h4, h5, g1, g2, g3, hftp, hregp]

/-- Witness for claim C5's amended theorem at the unknown, non-prototype
keys "widget" and "latam". -/
theorem claim_C5_unknown_key_fallback_witness :
    getBCMClassification "widget" = JLookup.str "To Be Determined" ∧
    getLegalEntity "latam" = JLookup.str "TBD" :=
  ⟨(claim_C5_unknown_key_fallback "widget" "latam"
      (by decide) (by decide) (by decide) (by decide)).1,
   (claim_C5_unknown_key_fallback "widget" "latam"
      (by decide) (by decide) (by decide) (by decide)).2.2.2.2.2.2.2.1⟩

/-- Claim C6 (confirmed): on every unavailability outcome of the
predictive subprocess (spawn error, non-zero exit, or unreadable or
malformed output), `generatePredictions` returns the complete fallback
prediction object, whose `confidence_overall` is 0.6 and whose `note`
field is present, and `generateBIA` builds a document normally from that
object. -/
theorem claim_C6_predictive_fallback (outcome : RoosterOutcome)
    (functionName generatedAt : String)
    (h : ∀ raw, outcome ≠ RoosterOutcome.output raw) :
    generatePredictions outcome functionName generatedAt =
      getFallbackPredictions functionName generatedAt ∧
    (generatePredictions outcome functionName generatedAt).confidence_overall = some (3/5) ∧
    (generatePredictions outcome functionName generatedAt).note =
      some "Fallback predictions used - integrate with Rooster for enhanced accuracy" ∧
    ∀ (biaId gAt ntd : String) (r : BiaRequest),
      (generateBIA biaId gAt ntd
        { r with autoPopulatedData :=
            { r.autoPopulatedData with
              predictions := some (generatePredictions outcome functionName generatedAt) } }).predictive_analysis =
        some (generatePredictions outcome functionName generatedAt) ∧
      (generateBIA biaId gAt ntd
        { r with autoPopulatedData :=
            { r.autoPopulatedData with
              predictions := some (generatePredictions outcome functionName generatedAt) } }).status =
        "draft" := by
  cases outcome with
  | output raw => exact absurd rfl (h raw)
  | spawnError e =>
    exact ⟨rfl, by norm_num [generatePredictions, getFallbackPredictions], rfl,
      fun biaId gAt ntd r => ⟨rfl, rfl⟩⟩
  | exitNonZero c e =>
    exact ⟨rfl, by norm_num [generatePredictions, getFallbackPredictions], rfl,
      fun biaId gAt ntd r => ⟨rfl, rfl⟩⟩
  | outputUnreadable e =>
    exact ⟨rfl, by norm_num [generatePredictions, getFallbackPredictions], rfl,
      fun biaId gAt ntd r => ⟨rfl, rfl⟩⟩

/-- Witness for claim C6 at a concrete spawn failure. -/
theorem claim_C6_predictive_fallback_witness :
    (generatePredictions (RoosterOutcome.spawnError "spawn python3 ENOENT")
      "PaymentsCore" "t0").confidence_overall = some (3/5) ∧
    (generatePredictions (RoosterOutcome.spawnError "spawn python3 ENOENT")
      "PaymentsCore" "t0").note =
      some "Fallback predictions used - integrate with Rooster for enhanced accuracy" :=
  ⟨(claim_C6_predictive_fallback (RoosterOutcome.spawnError "spawn python3 ENOENT")
      "PaymentsCore" "t0" (fun raw hc => RoosterOutcome.noConfusion hc)).2.1,
   (claim_C6_predictive_fallback (RoosterOutcome.spawnError "spawn python3 ENOENT")
      "PaymentsCore" "t0" (fun raw hc => RoosterOutcome.noConfusion hc)).2.2.1⟩

/-- Claim C7 counterexample: a request to approve a document whose current
status is draft does NOT fail with an invalid-transition error; it
succeeds, performs the external Fusion push, and changes the status. -/
theorem claim_C7_counterexample :
    approveBIA { status := "draft", fusionPushes := 0, auditEntries := 0 } =
      (ApproveOutcome.success, { status := "approved", fusionPushes := 1, auditEntries := 0 }) ∧
    (approveBIA { status := "draft", fusionPushes := 0, auditEntries := 0 }).1 ≠
      ApproveOutcome.invalidTransition ∧
    (approveBIA { status := "draft", fusionPushes := 0, auditEntries := 0 }).2.status ≠
      "draft" ∧
    (approveBIA { status := "draft", fusionPushes := 0, auditEntries := 0 }).2.fusionPushes ≠ 0 :=
  ⟨rfl, by decide, by decide, by decide⟩

/-- Claim C7 as amended: the approval route performs no transition
validation at all — from every prior state, including draft, the request
succeeds, performs exactly one Fusion push, sets the status to approved,
and writes no audit entry. -/
theorem claim_C7_approve_unchecked (st : ApprovalState) :
    (approveBIA st).1 = ApproveOutcome.success ∧
    (approveBIA st).2.status = "approved" ∧
    (approveBIA st).2.fusionPushes = st.fusionPushes + 1 ∧
    (approveBIA st).2.auditEntries = st.auditEntries :=
  ⟨rfl, rfl, rfl, rfl⟩

/-- Claim C8 (code bug): the temp-file cleanup block of
`generatePredictions` is placed before the catch instead of in a finally
position, so on every failure exit path (spawn error, non-zero exit,
unreadable output) the temporary input file written beforehand — and the
output file, when the subprocess had created one — remain on disk; only
the success path cleans up. -/
theorem claim_C8_temp_file_cleanup :
    (generatePredictionsRun (RoosterOutcome.spawnError "spawn python3 ENOENT") false
      "PaymentsCore" "t0").2.cleanedUp = false ∧
    (generatePredictionsRun (RoosterOutcome.spawnError "spawn python3 ENOENT") false
      "PaymentsCore" "t0").2.inputCreated = true ∧
    (generatePredictionsRun (RoosterOutcome.spawnError "spawn python3 ENOENT") false
      "PaymentsCore" "t0").2.inputRemains = true ∧
    (generatePredictionsRun (RoosterOutcome.outputUnreadable "SyntaxError") true
      "PaymentsCore" "t0").2.cleanedUp = false ∧
    (generatePredictionsRun (RoosterOutcome.exitNonZero 1 "Traceback") false
      "PaymentsCore" "t0").2.cleanedUp = false ∧
    (∀ (raw : RoosterRaw) (fn gAt : String),
      (generatePredictionsRun (RoosterOutcome.output raw) true fn gAt).2.cleanedUp = true) :=
  ⟨rfl, rfl, rfl, rfl, rfl, fun _ _ _ => rfl⟩

/-- Claim C9 (confirmed): a source whose payload is present but whose
confidence score is exactly 0 is treated as absent by the confidence
aggregator — the assessment is identical to the one computed with that
slot removed — while the same payload still produces an entry in the
`data_sources` summary.  Stated for each of the six sources. -/
theorem claim_C9_zero_score_source (d : AutoPopulatedData) :
    (∀ r, d.registry = some r → r.confidence_score = some 0 →
       calculateConfidenceScores d = calculateConfidenceScores { d with registry := none } ∧
       (generateDataSourceSummary d).any (fun e => e.name = "Registry (Snowflake)") = true) ∧
    (∀ p, d.pagerDuty = some p → p.confidence_score = some 0 →
       calculateConfidenceScores d = calculateConfidenceScores { d with pagerDuty := none } ∧
       (generateDataSourceSummary d).any (fun e => e.name = "PagerDuty") = true) ∧
    (∀ h, d.hr = some h → h.confidence_score = some 0 →
       calculateConfidenceScores d = calculateConfidenceScores { d with hr := none } ∧
       (generateDataSourceSummary d).any (fun e => e.name = "HR Systems") = true) ∧
    (∀ f, d.financial = some f → f.confidence_score = some 0 →
       calculateConfidenceScores d = calculateConfidenceScores { d with financial := none } ∧
       (generateDataSourceSummary d).any (fun e => e.name = "Financial Systems") = true) ∧
    (∀ m, d.monitoring = some m → m.confidence_score = some 0 →
       calculateConfidenceScores d = calculateConfidenceScores { d with monitoring := none } ∧
       (generateDataSourceSummary d).any (fun e => e.name = "Monitoring Systems") = true) ∧
    (∀ p, d.predictions = some p → p.confidence_overall = some 0 →
       calculateConfidenceScores d = calculateConfidenceScores { d with predictions := none } ∧
       (generateDataSourceSummary d).any (fun e => e.name = "Rooster Predictions") = true) := by
  refine ⟨fun x hx h0 => ⟨?_, ?_⟩, fun x hx h0 => ⟨?_, ?_⟩, fun x hx h0 => ⟨?_, ?_⟩,
    fun x hx h0 => ⟨?_, ?_⟩, fun x hx h0 => ⟨?_, ?_⟩, fun x hx h0 => ⟨?_, ?_⟩⟩ <;>
  first
  | (have e : collectScores d = collectScores { d with registry := none } := by
       simp [collectScores, hx, h0, contribScore]
     simp only [calculateConfidenceScores, e])
  | (have e : collectScores d = collectScores { d with pagerDuty := none } := by
       simp [collectScores, hx, h0, contribScore]
     simp only [calculateConfidenceScores, e])
  | (have e : collectScores d = collectScores { d with hr := none } := by
       simp [collectScores, hx, h0, contribScore]
     simp only [calculateConfidenceScores, e])
  | (have e : collectScores d = collectScores { d with financial := none } := by
       simp [collectScores, hx, h0, contribScore]
     simp only [calculateConfidenceScores, e])
  | (have e : collectScores d = collectScores { d with monitoring := none } := by
       simp [collectScores, hx, h0, contribScore]
     simp only [calculateConfidenceScores, e])
  | (have e : collectScores d = collectScores { d with predictions := none } := by
       simp [collectScores, hx, h0, contribScore]
     simp only [calculateConfidenceScores, e])
  | simp [generateDataSourceSummary, hx]

/-- Witness for claim C9: a registry payload with score exactly 0. -/
theorem claim_C9_zero_score_source_witness :
    calculateConfidenceScores zeroRegistryData =
      calculateConfidenceScores { zeroRegistryData with registry := none } ∧
    (generateDataSourceSummary zeroRegistryData).any
      (fun e => e.name = "Registry (Snowflake)") = true :=
  (claim_C9_zero_score_source zeroRegistryData).1 (registryWithScore 0) rfl rfl

/-- Claim C10 (confirmed): when no payload slot contributes a score (each
slot absent, scoreless, or carrying score 0), the aggregator defaults the
unrounded mean to 0.5, so the assessment is exactly overall 0.5, level
Low, completeness 0, with the fixed non-empty remediation list. -/
theorem claim_C10_no_contributing_source (d : AutoPopulatedData)
    (h1 : Scoreless (d.registry.bind fun r => r.confidence_score))
    (h2 : Scoreless (d.pagerDuty.bind fun p => p.confidence_score))
    (h3 : Scoreless (d.hr.bind fun h => h.confidence_score))
    (h4 : Scoreless (d.financial.bind fun f => f.confidence_score))
    (h5 : Scoreless (d.monitoring.bind fun m => m.confidence_score))
    (h6 : Scoreless (d.predictions.bind fun p => p.confidence_overall)) :
    calculateConfidenceScores d =
      { overall_confidence := 1/2, data_completeness := 0, confidence_level := "Low",
        recommendations := ["Verify data source connections", "Update missing information",
          "Schedule data validation review"] } := by
  have e : collectScores d = [] := by
    rw [collectScores, contribScore_eq_nil h1, contribScore_eq_nil h2, contribScore_eq_nil h3,
      contribScore_eq_nil h4, contribScore_eq_nil h5, contribScore_eq_nil h6]
    rfl
  rw [calculateConfidenceScores, e]
  norm_num [jsRound]

/-- Witness for claim C10 at the total-failure input. -/
theorem claim_C10_no_contributing_source_witness :
    calculateConfidenceScores allFailedData =
      { overall_confidence := 1/2, data_completeness := 0, confidence_level := "Low",
        recommendations := ["Verify data source connections", "Update missing information",
          "Schedule data validation review"] } :=
  claim_C10_no_contributing_source allFailedData (Or.inl rfl) (Or.inl rfl) (Or.inl rfl)
    (Or.inl rfl) (Or.inl rfl) (Or.inl rfl)

end BIA
